import Mathlib

/-
Verification of the contact constraint solver (ContactSolverSystem) of the
reactphysics3d fork, against its natural-language specification.

The solver source (src/src/systems/ContactSolverSystem.cpp) is shallowly
embedded below over exact rationals.  Machine floating point is modelled by
exact field arithmetic; square roots computed by the source (vector lengths,
mixed friction coefficient) enter either as record fields of the solver
state or as explicit length values constrained by their defining equation
in the theorem hypotheses.  The body component store (structure of arrays)
is modelled by functions from row indices to values, and array mutation by
pointwise function update.
-/

set_option maxHeartbeats 1600000

namespace RP3D

/-- Three-component vector over exact rationals, modelling the reactphysics3d
Vector3 type as used by the contact solver. -/
@[ext] structure Vec3 where
  x : ℚ
  y : ℚ
  z : ℚ
deriving DecidableEq

namespace Vec3

/-- The zero vector. -/
def zero : Vec3 := ⟨0, 0, 0⟩

/-- Componentwise addition. -/
def add (a b : Vec3) : Vec3 := ⟨a.x + b.x, a.y + b.y, a.z + b.z⟩

/-- Componentwise subtraction. -/
def sub (a b : Vec3) : Vec3 := ⟨a.x - b.x, a.y - b.y, a.z - b.z⟩

/-- Componentwise negation. -/
def neg (a : Vec3) : Vec3 := ⟨-a.x, -a.y, -a.z⟩

/-- Scalar multiplication. -/
def smul (k : ℚ) (a : Vec3) : Vec3 := ⟨k * a.x, k * a.y, k * a.z⟩

/-- Componentwise (Hadamard) product, used for the per-axis velocity factors. -/
def compMul (a b : Vec3) : Vec3 := ⟨a.x * b.x, a.y * b.y, a.z * b.z⟩

/-- Dot product. -/
def dot (a b : Vec3) : ℚ := a.x * b.x + a.y * b.y + a.z * b.z

/-- Cross product, with the same component formulas as Vector3.cross. -/
def cross (a b : Vec3) : Vec3 :=
  ⟨a.y * b.z - a.z * b.y, a.z * b.x - a.x * b.z, a.x * b.y - a.y * b.x⟩

instance : Add Vec3 := ⟨Vec3.add⟩

instance : Sub Vec3 := ⟨Vec3.sub⟩

instance : Neg Vec3 := ⟨Vec3.neg⟩

instance : SMul ℚ Vec3 := ⟨Vec3.smul⟩

end Vec3

/-- Three-by-three matrix over exact rationals (rows), modelling Matrix3x3 as
used by the contact solver (inverse inertia tensors, inverse rolling matrix). -/
@[ext] structure Mat3 where
  row0 : Vec3
  row1 : Vec3
  row2 : Vec3
deriving DecidableEq

namespace Mat3

/-- The zero matrix. -/
def zero : Mat3 := ⟨Vec3.zero, Vec3.zero, Vec3.zero⟩

/-- Matrix-vector product. -/
def mulVec (M : Mat3) (v : Vec3) : Vec3 := ⟨M.row0.dot v, M.row1.dot v, M.row2.dot v⟩

end Mat3

/-- The mutable body component store columns touched by the contact solver,
modelled as functions from the rigid body component row index to the value.
Matches the RigidBodyComponents columns named in the source. -/
structure RigidBodyComponents where
  linearVelocities : ℕ → Vec3
  angularVelocities : ℕ → Vec3
  constrainedLinearVelocities : ℕ → Vec3
  constrainedAngularVelocities : ℕ → Vec3
  splitLinearVelocities : ℕ → Vec3
  splitAngularVelocities : ℕ → Vec3
  linearVelocitiesFactors : ℕ → Vec3
  angularVelocitiesFactors : ℕ → Vec3

/-- Solver-internal per contact point record (ContactPointSolver in the
source), with the external contact point back-pointer modelled as a stable
index into the external contact point array. -/
structure ContactPointSolver where
  externalContactIndex : ℕ
  normal : Vec3
  r1 : Vec3
  r2 : Vec3
  penetrationDepth : ℚ
  isRestingContact : Bool
  penetrationImpulse : ℚ
  penetrationSplitImpulse : ℚ
  restitutionBias : ℚ
  inversePenetrationMass : ℚ
  i1TimesR1CrossN : Vec3
  i2TimesR2CrossN : Vec3
deriving DecidableEq

/-- Solver-internal per contact manifold record (ContactManifoldSolver in the
source), with the external manifold back-pointer modelled as a stable index. -/
structure ContactManifoldSolver where
  externalManifoldIndex : ℕ
  body1 : ℕ
  body2 : ℕ
  inverseInertiaTensorBody1 : Mat3
  inverseInertiaTensorBody2 : Mat3
  massInverseBody1 : ℚ
  massInverseBody2 : ℚ
  nbContacts : ℕ
  frictionCoefficient : ℚ
  rollingResistanceFactor : ℚ
  normal : Vec3
  frictionVector1 : Vec3
  frictionVector2 : Vec3
  oldFrictionVector1 : Vec3
  oldFrictionVector2 : Vec3
  r1Friction : Vec3
  r2Friction : Vec3
  r1CrossT1 : Vec3
  r1CrossT2 : Vec3
  r2CrossT1 : Vec3
  r2CrossT2 : Vec3
  inverseFriction1Mass : ℚ
  inverseFriction2Mass : ℚ
  inverseTwistFrictionMass : ℚ
  friction1Impulse : ℚ
  friction2Impulse : ℚ
  frictionTwistImpulse : ℚ
  rollingResistanceImpulse : Vec3
  inverseRollingResistance : Mat3
deriving DecidableEq

/-- External contact point fields persisted across steps (the part of the
external ContactPoint the solver reads and writes back). -/
structure ContactPointRecord where
  penetrationImpulse : ℚ
  isRestingContact : Bool
deriving DecidableEq

/-- External contact manifold accumulators persisted across steps. -/
structure ContactManifoldRecord where
  frictionImpulse1 : ℚ
  frictionImpulse2 : ℚ
  frictionTwistImpulse : ℚ
  rollingResistanceImpulse : Vec3
  frictionVector1 : Vec3
  frictionVector2 : Vec3
deriving DecidableEq

/-- Constant BETA of the source (Baumgarte factor 0.2). -/
def BETA : ℚ := 1/5

/-- Constant BETA_SPLIT_IMPULSE of the source (0.2). -/
def BETA_SPLIT_IMPULSE : ℚ := 1/5

/-- Constant SLOP of the source (allowed penetration 0.01). -/
def SLOP : ℚ := 1/100

/-- The larger of two rationals, modelling std::max by the literal
conditional so that concrete states evaluate inside the kernel. -/
def qmax (a b : ℚ) : ℚ := if a ≤ b then b else a

/-- The smaller of two rationals, modelling std::min. -/
def qmin (a b : ℚ) : ℚ := if a ≤ b then a else b

/-- Write one row of the constrainedLinearVelocities column. -/
def setCLV (b : RigidBodyComponents) (i : ℕ) (v : Vec3) : RigidBodyComponents :=
  { b with constrainedLinearVelocities := Function.update b.constrainedLinearVelocities i v }

/-- Write one row of the constrainedAngularVelocities column. -/
def setCAV (b : RigidBodyComponents) (i : ℕ) (v : Vec3) : RigidBodyComponents :=
  { b with constrainedAngularVelocities := Function.update b.constrainedAngularVelocities i v }

/-- Write one row of the linearVelocities column (the step-start snapshot). -/
def setLV (b : RigidBodyComponents) (i : ℕ) (v : Vec3) : RigidBodyComponents :=
  { b with linearVelocities := Function.update b.linearVelocities i v }

/-- Write one row of the angularVelocities column (the step-start snapshot). -/
def setAV (b : RigidBodyComponents) (i : ℕ) (v : Vec3) : RigidBodyComponents :=
  { b with angularVelocities := Function.update b.angularVelocities i v }

/-- Write one row of the splitLinearVelocities column. -/
def setSLV (b : RigidBodyComponents) (i : ℕ) (v : Vec3) : RigidBodyComponents :=
  { b with splitLinearVelocities := Function.update b.splitLinearVelocities i v }

/-- Write one row of the splitAngularVelocities column. -/
def setSAV (b : RigidBodyComponents) (i : ℕ) (v : Vec3) : RigidBodyComponents :=
  { b with splitAngularVelocities := Function.update b.splitAngularVelocities i v }

/-- Position-correction bias of the normal constraint (source lines 534-538):
zero unless the penetration depth exceeds SLOP, in which case it is
minus (beta over the time step) times the clamped excess depth. -/
def biasPenetrationDepth (beta timeStep d : ℚ) : ℚ :=
  if d > SLOP then -(beta / timeStep) * qmax 0 (d - SLOP) else 0

/-- Unprojected Lagrange multiplier increment of the normal constraint
(source lines 542-548): when split impulse is active the position bias is
left out of the main-field update, otherwise the combined bias is used. -/
def normalDeltaLambda (split : Bool) (Jv bias restitutionBias invMass : ℚ) : ℚ :=
  if split then -(Jv + restitutionBias) * invMass
  else -(Jv + (bias + restitutionBias)) * invMass

/-- One normal-constraint update at a contact point inside solve (source
lines 517-646), including the factor multiplications of lines 567-574 and
585-592 and the split-impulse block.  Returns the updated point record, the
updated running sum of penetration impulses of the manifold, and the updated
body store. -/
def solvePoint (split : Bool) (beta timeStep : ℚ) (m : ContactManifoldSolver)
    (p : ContactPointSolver) (sum : ℚ) (b : RigidBodyComponents) :
    ContactPointSolver × ℚ × RigidBodyComponents :=
  let v1 := b.constrainedLinearVelocities m.body1
  let w1 := b.constrainedAngularVelocities m.body1
  let v2 := b.constrainedLinearVelocities m.body2
  let w2 := b.constrainedAngularVelocities m.body2
  let deltaV := v2 + w2.cross p.r2 - v1 - w1.cross p.r1
  let Jv := deltaV.dot p.normal
  let bias := biasPenetrationDepth beta timeStep p.penetrationDepth
  let deltaLambda0 := normalDeltaLambda split Jv bias p.restitutionBias p.inversePenetrationMass
  let newImpulse := qmax (p.penetrationImpulse + deltaLambda0) 0
  let deltaLambda := newImpulse - p.penetrationImpulse
  let linearImpulse := deltaLambda • p.normal
  let b := setCLV b m.body1
      (b.constrainedLinearVelocities m.body1 - m.massInverseBody1 • linearImpulse)
  let b := setCAV b m.body1
      (b.constrainedAngularVelocities m.body1 - deltaLambda • p.i1TimesR1CrossN)
  let b := setCLV b m.body1
      ((b.constrainedLinearVelocities m.body1).compMul (b.linearVelocitiesFactors m.body1))
  let b := setCAV b m.body1
      ((b.constrainedAngularVelocities m.body1).compMul (b.angularVelocitiesFactors m.body1))
  let b := setLV b m.body1
      ((b.linearVelocities m.body1).compMul (b.linearVelocitiesFactors m.body1))
  let b := setAV b m.body1
      ((b.angularVelocities m.body1).compMul (b.angularVelocitiesFactors m.body1))
  let b := setCLV b m.body2
      (b.constrainedLinearVelocities m.body2 + m.massInverseBody2 • linearImpulse)
  let b := setCAV b m.body2
      (b.constrainedAngularVelocities m.body2 + deltaLambda • p.i2TimesR2CrossN)
  let b := setCLV b m.body2
      ((b.constrainedLinearVelocities m.body2).compMul (b.linearVelocitiesFactors m.body2))
  let b := setCAV b m.body2
      ((b.constrainedAngularVelocities m.body2).compMul (b.angularVelocitiesFactors m.body2))
  let b := setCLV b m.body1
      ((b.constrainedLinearVelocities m.body1).compMul (b.linearVelocitiesFactors m.body1))
  let b := setCAV b m.body1
      ((b.constrainedAngularVelocities m.body1).compMul (b.angularVelocitiesFactors m.body1))
  let sum := sum + newImpulse
  let splitResult :=
    if split then
      let v1s := b.splitLinearVelocities m.body1
      let w1s := b.splitAngularVelocities m.body1
      let v2s := b.splitLinearVelocities m.body2
      let w2s := b.splitAngularVelocities m.body2
      let deltaVSplit := v2s + w2s.cross p.r2 - v1s - w1s.cross p.r1
      let JvSplit := deltaVSplit.dot p.normal
      let deltaLambdaSplit0 := -(JvSplit + bias) * p.inversePenetrationMass
      let newSplit := qmax (p.penetrationSplitImpulse + deltaLambdaSplit0) 0
      let deltaLambdaSplit := newSplit - p.penetrationSplitImpulse
      let linearImpulseSplit := deltaLambdaSplit • p.normal
      let b := setSLV b m.body1
          (b.splitLinearVelocities m.body1 - m.massInverseBody1 • linearImpulseSplit)
      let b := setSAV b m.body1
          (b.splitAngularVelocities m.body1 - deltaLambdaSplit • p.i1TimesR1CrossN)
      let b := setSLV b m.body2
          (b.splitLinearVelocities m.body2 + m.massInverseBody2 • linearImpulseSplit)
      let b := setSAV b m.body2
          (b.splitAngularVelocities m.body2 + deltaLambdaSplit • p.i2TimesR2CrossN)
      (newSplit, b)
    else (p.penetrationSplitImpulse, b)
  ({ p with penetrationImpulse := newImpulse, penetrationSplitImpulse := splitResult.1 },
   sum, splitResult.2)

/-- The normal pass over the contact points of one manifold (source loop at
lines 517-647), threading the penetration-impulse sum and the body store. -/
def solvePointsPass (split : Bool) (beta timeStep : ℚ) (m : ContactManifoldSolver) :
    List ContactPointSolver → ℚ → RigidBodyComponents →
    List ContactPointSolver × ℚ × RigidBodyComponents
  | [], sum, b => ([], sum, b)
  | p :: ps, sum, b =>
    let r := solvePoint split beta timeStep m p sum b
    let rest := solvePointsPass split beta timeStep m ps r.2.1 r.2.2
    (r.1 :: rest.1, rest.2)

/-- The two tangential friction constraints and the twist friction constraint
of one manifold (source lines 649-770).  Velocities are re-read from the
store at each section, matching the reference bindings in the source. -/
def frictionSteps (m : ContactManifoldSolver) (sum : ℚ) (b : RigidBodyComponents) :
    ContactManifoldSolver × RigidBodyComponents :=
  let v1 := b.constrainedLinearVelocities m.body1
  let w1 := b.constrainedAngularVelocities m.body1
  let v2 := b.constrainedLinearVelocities m.body2
  let w2 := b.constrainedAngularVelocities m.body2
  let deltaV := v2 + w2.cross m.r2Friction - v1 - w1.cross m.r1Friction
  let Jv := deltaV.dot m.frictionVector1
  let deltaLambda0 := -Jv * m.inverseFriction1Mass
  let frictionLimit := m.frictionCoefficient * sum
  let newF1 := qmax (-frictionLimit) (qmin (m.friction1Impulse + deltaLambda0) frictionLimit)
  let deltaLambda := newF1 - m.friction1Impulse
  let angularImpulseBody1 := deltaLambda • m.r1CrossT1.neg
  let linearImpulseBody2 := deltaLambda • m.frictionVector1
  let angularImpulseBody2 := deltaLambda • m.r2CrossT1
  let b := setCLV b m.body1
      (b.constrainedLinearVelocities m.body1 - m.massInverseBody1 • linearImpulseBody2)
  let b := setCAV b m.body1
      (b.constrainedAngularVelocities m.body1 + m.inverseInertiaTensorBody1.mulVec angularImpulseBody1)
  let b := setCLV b m.body2
      (b.constrainedLinearVelocities m.body2 + m.massInverseBody2 • linearImpulseBody2)
  let b := setCAV b m.body2
      (b.constrainedAngularVelocities m.body2 + m.inverseInertiaTensorBody2.mulVec angularImpulseBody2)
  let v1b := b.constrainedLinearVelocities m.body1
  let w1b := b.constrainedAngularVelocities m.body1
  let v2b := b.constrainedLinearVelocities m.body2
  let w2b := b.constrainedAngularVelocities m.body2
  let deltaV2 := v2b + w2b.cross m.r2Friction - v1b - w1b.cross m.r1Friction
  let Jv2 := deltaV2.dot m.frictionVector2
  let deltaLambda20 := -Jv2 * m.inverseFriction2Mass
  let newF2 := qmax (-frictionLimit) (qmin (m.friction2Impulse + deltaLambda20) frictionLimit)
  let deltaLambda2 := newF2 - m.friction2Impulse
  let angularImpulseBody1b := deltaLambda2 • m.r1CrossT2.neg
  let linearImpulseBody2b := deltaLambda2 • m.frictionVector2
  let angularImpulseBody2b := deltaLambda2 • m.r2CrossT2
  let b := setCLV b m.body1
      (b.constrainedLinearVelocities m.body1 - m.massInverseBody1 • linearImpulseBody2b)
  let b := setCAV b m.body1
      (b.constrainedAngularVelocities m.body1 + m.inverseInertiaTensorBody1.mulVec angularImpulseBody1b)
  let b := setCLV b m.body2
      (b.constrainedLinearVelocities m.body2 + m.massInverseBody2 • linearImpulseBody2b)
  let b := setCAV b m.body2
      (b.constrainedAngularVelocities m.body2 + m.inverseInertiaTensorBody2.mulVec angularImpulseBody2b)
  let w1c := b.constrainedAngularVelocities m.body1
  let w2c := b.constrainedAngularVelocities m.body2
  let JvT := (w2c - w1c).dot m.normal
  let deltaLambdaT0 := -JvT * m.inverseTwistFrictionMass
  let newT := qmax (-frictionLimit) (qmin (m.frictionTwistImpulse + deltaLambdaT0) frictionLimit)
  let deltaLambdaT := newT - m.frictionTwistImpulse
  let angularImpulseT := deltaLambdaT • m.normal
  let b := setCAV b m.body1
      (b.constrainedAngularVelocities m.body1 - m.inverseInertiaTensorBody1.mulVec angularImpulseT)
  let b := setCAV b m.body2
      (b.constrainedAngularVelocities m.body2 + m.inverseInertiaTensorBody2.mulVec angularImpulseT)
  ({ m with friction1Impulse := newF1, friction2Impulse := newF2, frictionTwistImpulse := newT }, b)

/-- Modelled from the spec: the helper clamp(Vector3, decimal) used by the
rolling resistance update is not among the available source files; the spec
(sections 4.3 and 9) states that the source clamps per axis, bounding the
absolute value of each component by the given limit. -/
def clampVec (v : Vec3) (limit : ℚ) : Vec3 :=
  ⟨qmax (-limit) (qmin v.x limit), qmax (-limit) (qmin v.y limit), qmax (-limit) (qmin v.z limit)⟩

/-- Rolling resistance constraint of one manifold (source lines 772-792),
guarded by a strictly positive mixed rolling resistance factor. -/
def rollingStep (m : ContactManifoldSolver) (sum : ℚ) (b : RigidBodyComponents) :
    ContactManifoldSolver × RigidBodyComponents :=
  if 0 < m.rollingResistanceFactor then
    let w1 := b.constrainedAngularVelocities m.body1
    let w2 := b.constrainedAngularVelocities m.body2
    let JvRolling := w2 - w1
    let deltaLambdaRolling0 := m.inverseRollingResistance.mulVec JvRolling.neg
    let rollingLimit := m.rollingResistanceFactor * sum
    let newRolling := clampVec (m.rollingResistanceImpulse + deltaLambdaRolling0) rollingLimit
    let deltaLambdaRolling := newRolling - m.rollingResistanceImpulse
    let b := setCAV b m.body1
        (b.constrainedAngularVelocities m.body1 - m.inverseInertiaTensorBody1.mulVec deltaLambdaRolling)
    let b := setCAV b m.body2
        (b.constrainedAngularVelocities m.body2 + m.inverseInertiaTensorBody2.mulVec deltaLambdaRolling)
    ({ m with rollingResistanceImpulse := newRolling }, b)
  else (m, b)

/-- One full sweep over a single manifold inside solve: the normal pass over
its points, then friction, twist and rolling resistance. -/
def solveManifold (split : Bool) (beta timeStep : ℚ) (m : ContactManifoldSolver)
    (pts : List ContactPointSolver) (b : RigidBodyComponents) :
    ContactManifoldSolver × List ContactPointSolver × RigidBodyComponents :=
  let r := solvePointsPass split beta timeStep m pts 0 b
  let fr := frictionSteps m r.2.1 r.2.2
  let ro := rollingStep fr.1 r.2.1 fr.2
  (ro.1, r.1, ro.2)

/-- The manifold loop of solve, consuming for each manifold its nbContacts
points from the flat contact point array. -/
def solveLoop (split : Bool) (beta timeStep : ℚ) :
    List ContactManifoldSolver → List ContactPointSolver → RigidBodyComponents →
    List ContactManifoldSolver × List ContactPointSolver × RigidBodyComponents
  | [], pts, b => ([], pts, b)
  | m :: ms, pts, b =>
    let r := solveManifold split beta timeStep m (pts.take m.nbContacts) b
    let rest := solveLoop split beta timeStep ms (pts.drop m.nbContacts) r.2.2
    (r.1 :: rest.1, r.2.1 ++ rest.2.1, rest.2.2)

/-- ContactSolverSystem.solve (source lines 496-794): one projected
Gauss-Seidel sweep over every manifold. -/
def solve (split : Bool) (timeStep : ℚ) (ms : List ContactManifoldSolver)
    (pts : List ContactPointSolver) (b : RigidBodyComponents) :
    List ContactManifoldSolver × List ContactPointSolver × RigidBodyComponents :=
  let beta := if split then BETA_SPLIT_IMPULSE else BETA
  solveLoop split beta timeStep ms pts b

/-- Warm-start handling of one contact point (source lines 353-391): a
resting contact applies its stored penetration impulse to the constrained
velocities and raises the resting flag; a new contact zeroes its accumulated
penetration impulse. -/
def warmStartPoint (m : ContactManifoldSolver) (p : ContactPointSolver)
    (b : RigidBodyComponents) (atLeastOne : Bool) :
    ContactPointSolver × RigidBodyComponents × Bool :=
  if p.isRestingContact then
    let impulsePenetration := p.penetrationImpulse • p.normal
    let b := setCLV b m.body1
        (b.constrainedLinearVelocities m.body1 - m.massInverseBody1 • impulsePenetration)
    let b := setCAV b m.body1
        (b.constrainedAngularVelocities m.body1 - p.penetrationImpulse • p.i1TimesR1CrossN)
    let b := setCLV b m.body2
        (b.constrainedLinearVelocities m.body2 + m.massInverseBody2 • impulsePenetration)
    let b := setCAV b m.body2
        (b.constrainedAngularVelocities m.body2 + p.penetrationImpulse • p.i2TimesR2CrossN)
    (p, b, true)
  else
    ({ p with penetrationImpulse := 0 }, b, atLeastOne)

/-- The warm-start pass over the points of one manifold, threading the body
store and the at-least-one-resting-contact flag. -/
def warmStartPointsPass (m : ContactManifoldSolver) :
    List ContactPointSolver → RigidBodyComponents → Bool →
    List ContactPointSolver × RigidBodyComponents × Bool
  | [], b, flag => ([], b, flag)
  | p :: ps, b, flag =>
    let r := warmStartPoint m p b flag
    let rest := warmStartPointsPass m ps r.2.1 r.2.2
    (r.1 :: rest.1, rest.2)

/-- The previous-step manifold friction impulse reassembled in world space
from the old tangent basis (source lines 399-404). -/
def oldFrictionImpulse (m : ContactManifoldSolver) : Vec3 :=
  m.friction1Impulse • m.oldFrictionVector1 + m.friction2Impulse • m.oldFrictionVector2

/-- The manifold-level part of warm-start when at least one contact point was
resting (source lines 395-483): project the old friction impulses onto the
new tangent basis, then apply the friction, twist and rolling impulses to the
constrained velocities. -/
def warmStartManifoldResting (m : ContactManifoldSolver) (b : RigidBodyComponents) :
    ContactManifoldSolver × RigidBodyComponents :=
  let oldImpulse := oldFrictionImpulse m
  let newF1 := oldImpulse.dot m.frictionVector1
  let newF2 := oldImpulse.dot m.frictionVector2
  let angularImpulseBody1 := newF1 • m.r1CrossT1.neg
  let linearImpulseBody2 := newF1 • m.frictionVector1
  let angularImpulseBody2 := newF1 • m.r2CrossT1
  let b := setCLV b m.body1
      (b.constrainedLinearVelocities m.body1 - m.massInverseBody1 • linearImpulseBody2)
  let b := setCAV b m.body1
      (b.constrainedAngularVelocities m.body1 + m.inverseInertiaTensorBody1.mulVec angularImpulseBody1)
  let b := setCLV b m.body2
      (b.constrainedLinearVelocities m.body2 + m.massInverseBody2 • linearImpulseBody2)
  let b := setCAV b m.body2
      (b.constrainedAngularVelocities m.body2 + m.inverseInertiaTensorBody2.mulVec angularImpulseBody2)
  let angularImpulseBody1b := newF2 • m.r1CrossT2.neg
  let linearImpulseBody2b := newF2 • m.frictionVector2
  let angularImpulseBody2b := newF2 • m.r2CrossT2
  let b := setCLV b m.body1
      (b.constrainedLinearVelocities m.body1 - m.massInverseBody1 • linearImpulseBody2b)
  let b := setCAV b m.body1
      (b.constrainedAngularVelocities m.body1 + m.inverseInertiaTensorBody1.mulVec angularImpulseBody1b)
  let b := setCLV b m.body2
      (b.constrainedLinearVelocities m.body2 + m.massInverseBody2 • linearImpulseBody2b)
  let b := setCAV b m.body2
      (b.constrainedAngularVelocities m.body2 + m.inverseInertiaTensorBody2.mulVec angularImpulseBody2b)
  let angularImpulseBody1c := m.frictionTwistImpulse • m.normal.neg
  let angularImpulseBody2c := m.frictionTwistImpulse • m.normal
  let b := setCAV b m.body1
      (b.constrainedAngularVelocities m.body1 + m.inverseInertiaTensorBody1.mulVec angularImpulseBody1c)
  let b := setCAV b m.body2
      (b.constrainedAngularVelocities m.body2 + m.inverseInertiaTensorBody2.mulVec angularImpulseBody2c)
  let rollingImpulse := m.rollingResistanceImpulse
  let b := setCAV b m.body1
      (b.constrainedAngularVelocities m.body1 - m.inverseInertiaTensorBody1.mulVec rollingImpulse)
  let b := setCAV b m.body2
      (b.constrainedAngularVelocities m.body2 + m.inverseInertiaTensorBody2.mulVec rollingImpulse)
  ({ m with friction1Impulse := newF1, friction2Impulse := newF2 }, b)

/-- Warm-start of one manifold (source lines 349-492): the point pass, then
either the resting-contact friction projection or zeroing of the manifold
accumulators. -/
def warmStartManifold (m : ContactManifoldSolver) (pts : List ContactPointSolver)
    (b : RigidBodyComponents) :
    ContactManifoldSolver × List ContactPointSolver × RigidBodyComponents :=
  let r := warmStartPointsPass m pts b false
  if r.2.2 then
    let s := warmStartManifoldResting m r.2.1
    (s.1, r.1, s.2)
  else
    ({ m with friction1Impulse := 0, friction2Impulse := 0, frictionTwistImpulse := 0,
              rollingResistanceImpulse := Vec3.zero }, r.1, r.2.1)

/-- ContactSolverSystem.warmStart (source lines 342-493): the warm-start
sweep over every manifold, consuming the flat contact point array. -/
def warmStart : List ContactManifoldSolver → List ContactPointSolver → RigidBodyComponents →
    List ContactManifoldSolver × List ContactPointSolver × RigidBodyComponents
  | [], pts, b => ([], pts, b)
  | m :: ms, pts, b =>
    let r := warmStartManifold m (pts.take m.nbContacts) b
    let rest := warmStart ms (pts.drop m.nbContacts) r.2.2
    (r.1 :: rest.1, r.2.1 ++ rest.2.1, rest.2.2)

/-- Replace the element at an index of a list by the image under a function,
leaving the list unchanged when the index is out of range (used to model
writing through a stable external back-pointer). -/
def modifyAt (f : α → α) : ℕ → List α → List α
  | _, [] => []
  | 0, a :: as => f a :: as
  | n + 1, a :: as => a :: modifyAt f n as

/-- ContactSolverSystem.storeImpulses (source lines 820-843): write every
accumulated impulse and the tangent basis back to the external manifolds and
contact points for the next-step warm-start. -/
def storeImpulses : List ContactManifoldSolver → List ContactPointSolver →
    List ContactManifoldRecord → List ContactPointRecord →
    List ContactManifoldRecord × List ContactPointRecord
  | [], _, extMs, extPs => (extMs, extPs)
  | m :: ms, pts, extMs, extPs =>
    let extPs1 := (pts.take m.nbContacts).foldl
      (fun acc p => modifyAt (fun e => { e with penetrationImpulse := p.penetrationImpulse })
        p.externalContactIndex acc) extPs
    let extMs1 := modifyAt
      (fun e => { e with frictionImpulse1 := m.friction1Impulse,
                         frictionImpulse2 := m.friction2Impulse,
                         frictionTwistImpulse := m.frictionTwistImpulse,
                         rollingResistanceImpulse := m.rollingResistanceImpulse,
                         frictionVector1 := m.frictionVector1,
                         frictionVector2 := m.frictionVector2 })
      m.externalManifoldIndex extMs
    storeImpulses ms (pts.drop m.nbContacts) extMs1 extPs1

/-- The solver-internal records built by init. -/
structure SolverRecords where
  manifolds : List ContactManifoldSolver
  points : List ContactPointSolver

/-- ContactSolverSystem.init (source lines 64-102): the internal counts are
reset to zero and init returns before building any record when either input
list is empty; otherwise the per-island build runs, abstracted here as the
given build function since only the guard decides the claims below. -/
def init (build : Unit → SolverRecords) (nbContactManifolds nbContactPoints : ℕ) :
    SolverRecords :=
  if nbContactManifolds = 0 ∨ nbContactPoints = 0 then ⟨[], []⟩ else build ()

/-- The relative contact point velocity exactly as the init loop computes it
(source lines 204-209), with the literal componentwise arithmetic of the
source, including the signs it uses on the w1 terms. -/
def initDeltaV (v1 w1 v2 w2 r1 r2 : Vec3) : Vec3 :=
  ⟨v2.x + w2.y * r2.z - w2.z * r2.y - v1.x - w1.y * r1.z - w1.z * r1.y,
   v2.y + w2.z * r2.x - w2.x * r2.z - v1.y - w1.z * r1.x - w1.x * r1.z,
   v2.z + w2.x * r2.y - w2.y * r2.x - v1.z - w1.x * r1.y - w1.y * r1.x⟩

/-- The relative contact point velocity of the specification (and of the
comment at source line 203). -/
def relPointVelocitySpec (v1 w1 v2 w2 r1 r2 : Vec3) : Vec3 :=
  v2 + w2.cross r2 - v1 - w1.cross r1

/-- The restitution bias assignment of init (source lines 239-247): zero
unless the normal relative velocity is below minus the restitution velocity
threshold, in which case it is the mixed restitution factor times that
normal relative velocity. -/
def initRestitutionBias (threshold restitutionFactor deltaVDotN : ℚ) : ℚ :=
  if deltaVDotN < -threshold then restitutionFactor * deltaVDotN else 0

/-- Tangential part of the relative velocity at the manifold centre
(source lines 853-857 of computeFrictionVectors). -/
def tangentVelocity (deltaVelocity n : Vec3) : Vec3 :=
  deltaVelocity - (deltaVelocity.dot n) • n

/-- First friction vector in the tangential-velocity branch of
computeFrictionVectors (source line 865): the tangential velocity divided by
its euclidean length.  The length is an explicit value here, constrained by
its defining equation in the theorems, since square roots of rationals need
not be rational. -/
def frictionVector1Tangent (deltaVelocity n : Vec3) (lengthTangent : ℚ) : Vec3 :=
  (1 / lengthTangent) • tangentVelocity deltaVelocity n

/-- Second friction vector (source line 875): the unit vector along the cross
product of the normal and the first friction vector, the length again given
as an explicit constrained value. -/
def frictionVector2Unit (n t1 : Vec3) (lengthCross : ℚ) : Vec3 :=
  (1 / lengthCross) • n.cross t1

/-- Total number of contact points the manifold records of a solver state
claim to own in the flat contact point array. -/
def sumNbContacts (ms : List ContactManifoldSolver) : ℕ :=
  (ms.map (fun m => m.nbContacts)).sum

/-- A concrete contact point solver record with all fields zero, used as a
default value and as a building block for concrete states. -/
def defaultPoint : ContactPointSolver :=
  { externalContactIndex := 0, normal := ⟨0, 1, 0⟩, r1 := Vec3.zero, r2 := Vec3.zero,
    penetrationDepth := 0, isRestingContact := false, penetrationImpulse := 0,
    penetrationSplitImpulse := 0, restitutionBias := 0, inversePenetrationMass := 0,
    i1TimesR1CrossN := Vec3.zero, i2TimesR2CrossN := Vec3.zero }

/-- A concrete manifold solver record joining body rows 0 and 1, with zero
masses, inertia and accumulators, used as a building block for concrete
states. -/
def defaultManifold : ContactManifoldSolver :=
  { externalManifoldIndex := 0, body1 := 0, body2 := 1,
    inverseInertiaTensorBody1 := Mat3.zero, inverseInertiaTensorBody2 := Mat3.zero,
    massInverseBody1 := 0, massInverseBody2 := 0, nbContacts := 1,
    frictionCoefficient := 0, rollingResistanceFactor := 0,
    normal := ⟨0, 1, 0⟩, frictionVector1 := ⟨1, 0, 0⟩, frictionVector2 := ⟨0, 0, 1⟩,
    oldFrictionVector1 := ⟨1, 0, 0⟩, oldFrictionVector2 := ⟨0, 0, 1⟩,
    r1Friction := Vec3.zero, r2Friction := Vec3.zero,
    r1CrossT1 := Vec3.zero, r1CrossT2 := Vec3.zero,
    r2CrossT1 := Vec3.zero, r2CrossT2 := Vec3.zero,
    inverseFriction1Mass := 0, inverseFriction2Mass := 0, inverseTwistFrictionMass := 0,
    friction1Impulse := 0, friction2Impulse := 0, frictionTwistImpulse := 0,
    rollingResistanceImpulse := Vec3.zero, inverseRollingResistance := Mat3.zero }

/-- The default manifold with mixed friction coefficient one. -/
def manifoldMu1 : ContactManifoldSolver :=
  { defaultManifold with frictionCoefficient := 1 }

/-- The default manifold with mixed rolling resistance factor one third. -/
def manifoldRho : ContactManifoldSolver :=
  { defaultManifold with rollingResistanceFactor := 1/3 }

/-- The default point with inverse penetration mass one half. -/
def pointHalf : ContactPointSolver :=
  { defaultPoint with inversePenetrationMass := 1/2 }

/-- The default point marked as a resting contact with a stored penetration
impulse. -/
def pointResting : ContactPointSolver :=
  { defaultPoint with isRestingContact := true, penetrationImpulse := 3 }

/-- A concrete body store whose velocities are all (1, 0, 0), whose per-axis
velocity factors are all one except the linear factor of body row 0, which
is (1/2, 1, 1).  Exhibits the effect of the factor multiplications. -/
def bodiesHalfFactor : RigidBodyComponents :=
  { linearVelocities := fun _ => ⟨1, 0, 0⟩
    angularVelocities := fun _ => ⟨1, 0, 0⟩
    constrainedLinearVelocities := fun _ => ⟨1, 0, 0⟩
    constrainedAngularVelocities := fun _ => ⟨1, 0, 0⟩
    splitLinearVelocities := fun _ => Vec3.zero
    splitAngularVelocities := fun _ => Vec3.zero
    linearVelocitiesFactors := fun i => if i = 0 then ⟨1/2, 1, 1⟩ else ⟨1, 1, 1⟩
    angularVelocitiesFactors := fun _ => ⟨1, 1, 1⟩ }

/-- The second argument never exceeds qmax. -/
theorem le_qmax_right (a b : ℚ) : b ≤ qmax a b := by
  unfold qmax
  split_ifs with h
  · exact le_rfl
  · exact (not_le.mp h).le

/-- qmax with a nonnegative second argument is nonnegative. -/
theorem qmax_nonneg (a b : ℚ) (hb : 0 ≤ b) : 0 ≤ qmax a b :=
  le_trans hb (le_qmax_right a b)

/-- The symmetric clamp built from qmax and qmin bounds the absolute value by
the clamp limit whenever the limit is nonnegative. -/
theorem abs_qclamp_le (L x : ℚ) (hL : 0 ≤ L) : |qmax (-L) (qmin x L)| ≤ L := by
  unfold qmax qmin
  rw [abs_le]
  split_ifs <;> constructor <;> linarith

/-- C1: the claim states that init computes the relative contact point
velocity as v2 + w2 x r2 - v1 - w1 x r1 and sets the restitution bias from
its normal component.  The source (lines 204-209) adds the w1 cross-product
terms with flipped signs, contradicting its own comment at line 203: at the
input below with w1 = (0,0,1) and r1 = (0,1,0) the source value is the
negation of the formula value, and with threshold one half and mixed
restitution one the source sets bias -1 where the claimed formula yields
bias 0.  This theorem evaluates the embedded source at that failing input. -/
theorem init_relative_velocity_flaw :
    initDeltaV Vec3.zero ⟨0, 0, 1⟩ Vec3.zero Vec3.zero ⟨0, 1, 0⟩ Vec3.zero = ⟨-1, 0, 0⟩
    ∧ relPointVelocitySpec Vec3.zero ⟨0, 0, 1⟩ Vec3.zero Vec3.zero ⟨0, 1, 0⟩ Vec3.zero = ⟨1, 0, 0⟩
    ∧ initRestitutionBias (1/2) 1
        ((initDeltaV Vec3.zero ⟨0, 0, 1⟩ Vec3.zero Vec3.zero ⟨0, 1, 0⟩ Vec3.zero).dot ⟨1, 0, 0⟩) = -1
    ∧ initRestitutionBias (1/2) 1
        ((relPointVelocitySpec Vec3.zero ⟨0, 0, 1⟩ Vec3.zero Vec3.zero ⟨0, 1, 0⟩ Vec3.zero).dot ⟨1, 0, 0⟩) = 0 := by
  refine ⟨?_, ?_, ?_, ?_⟩ <;> with_unfolding_all rfl

/-- C10: init called with an empty manifold list or an empty contact point
list resets the internal counts and returns before building any solver
record, and warm-start, solve and store-impulses over the resulting empty
record set leave the body store and the external records unchanged. -/
theorem init_empty_noop (build : Unit → SolverRecords) (nbManifolds nbPoints : ℕ)
    (h : nbManifolds = 0 ∨ nbPoints = 0) (split : Bool) (timeStep : ℚ)
    (b : RigidBodyComponents) (extMs : List ContactManifoldRecord)
    (extPs : List ContactPointRecord) :
    (init build nbManifolds nbPoints).manifolds = []
    ∧ (init build nbManifolds nbPoints).points = []
    ∧ warmStart (init build nbManifolds nbPoints).manifolds
        (init build nbManifolds nbPoints).points b
        = ([], (init build nbManifolds nbPoints).points, b)
    ∧ solve split timeStep (init build nbManifolds nbPoints).manifolds
        (init build nbManifolds nbPoints).points b
        = ([], (init build nbManifolds nbPoints).points, b)
    ∧ storeImpulses (init build nbManifolds nbPoints).manifolds
        (init build nbManifolds nbPoints).points extMs extPs = (extMs, extPs) := by
  have hinit : init build nbManifolds nbPoints = ⟨[], []⟩ := by
    unfold init
    rcases h with h | h <;> simp [h]
  rw [hinit]
  exact ⟨rfl, rfl, rfl, rfl, rfl⟩

/-- Witness for C10 at concrete inputs: zero manifolds with five contact
points, a nonempty build result, and concrete store contents. -/
theorem init_empty_noop_witness :
    ((0 : ℕ) = 0 ∨ (5 : ℕ) = 0)
    ∧ (init (fun _ => ⟨[defaultManifold], [defaultPoint]⟩) 0 5).manifolds = []
    ∧ solve true (1/60) (init (fun _ => ⟨[defaultManifold], [defaultPoint]⟩) 0 5).manifolds
        (init (fun _ => ⟨[defaultManifold], [defaultPoint]⟩) 0 5).points bodiesHalfFactor
        = ([], (init (fun _ => ⟨[defaultManifold], [defaultPoint]⟩) 0 5).points, bodiesHalfFactor) :=
  ⟨Or.inl rfl,
   (init_empty_noop (fun _ => ⟨[defaultManifold], [defaultPoint]⟩) 0 5 (Or.inl rfl)
      true (1/60) bodiesHalfFactor [] []).1,
   (init_empty_noop (fun _ => ⟨[defaultManifold], [defaultPoint]⟩) 0 5 (Or.inl rfl)
      true (1/60) bodiesHalfFactor [] []).2.2.2.1⟩

/-- C2: the claim states that the step-start snapshot columns
linearVelocities and angularVelocities are only read and left unchanged by
every call to solve.  The source multiplies both snapshot columns of body 1
by the per-axis velocity factors inside the normal impulse loop (lines
571-574): at the concrete state below, with the linear factor of body row 0
set to (1/2, 1, 1), one call to solve scales the snapshot linear velocity of
body row 0 from (1, 0, 0) to (1/2, 0, 0). -/
theorem solve_mutates_snapshot_velocities :
    (solve false (1/60) [defaultManifold] [defaultPoint] bodiesHalfFactor).2.2.linearVelocities 0
      = ⟨1/2, 0, 0⟩
    ∧ bodiesHalfFactor.linearVelocities 0 = ⟨1, 0, 0⟩
    ∧ (solve false (1/60) [defaultManifold] [defaultPoint] bodiesHalfFactor).2.2.linearVelocities 0
      ≠ bodiesHalfFactor.linearVelocities 0 := by
  have h1 : (solve false (1/60) [defaultManifold] [defaultPoint] bodiesHalfFactor).2.2.linearVelocities 0
      = ⟨1/2, 0, 0⟩ := by with_unfolding_all rfl
  have hbase : bodiesHalfFactor.linearVelocities 0 = ⟨1, 0, 0⟩ := rfl
  refine ⟨h1, hbase, ?_⟩
  rw [h1, hbase]
  intro h2
  rw [Vec3.mk.injEq] at h2
  norm_num at h2

/-- C8: the claim states that after applying the normal impulse at a contact
point each velocity component of both bodies is multiplied exactly once by
its per-axis factor.  The source multiplies the constrained velocities of
body 1 at lines 567-570 and again inside the body 2 factor loop at lines
589-590: at the state below with linear factor (1/2, 1, 1) on body row 0 and
a zero impulse, one normal update leaves the constrained linear velocity of
body row 0 at (1/4, 0, 0), while a single factor application would leave the
(1/2, 0, 0) computed in the second conjunct. -/
theorem solve_factor_double_application :
    (solvePoint false (1/5) (1/60) defaultManifold defaultPoint 0
        bodiesHalfFactor).2.2.constrainedLinearVelocities 0 = ⟨1/4, 0, 0⟩
    ∧ (bodiesHalfFactor.constrainedLinearVelocities 0).compMul
        (bodiesHalfFactor.linearVelocitiesFactors 0) = ⟨1/2, 0, 0⟩
    ∧ (⟨1/4, 0, 0⟩ : Vec3) ≠ (⟨1/2, 0, 0⟩ : Vec3) := by
  refine ⟨by with_unfolding_all rfl, by with_unfolding_all rfl, ?_⟩
  intro h2
  rw [Vec3.mk.injEq] at h2
  norm_num at h2

/-- One normal update keeps the accumulated penetration impulse nonnegative:
the projected value is a qmax against zero. -/
theorem solvePoint_penetration_nonneg (split : Bool) (beta timeStep : ℚ)
    (m : ContactManifoldSolver) (p : ContactPointSolver) (s : ℚ)
    (b : RigidBodyComponents) :
    0 ≤ (solvePoint split beta timeStep m p s b).1.penetrationImpulse :=
  qmax_nonneg _ _ le_rfl

/-- With split impulse active, one normal update keeps the accumulated split
impulse nonnegative as well. -/
theorem solvePoint_splitImpulse_nonneg (beta timeStep : ℚ)
    (m : ContactManifoldSolver) (p : ContactPointSolver) (s : ℚ)
    (b : RigidBodyComponents) :
    0 ≤ (solvePoint true beta timeStep m p s b).1.penetrationSplitImpulse :=
  qmax_nonneg _ _ le_rfl

/-- Every point produced by the normal pass has a nonnegative penetration
impulse, and a nonnegative split impulse when split impulse is active. -/
theorem solvePointsPass_mem_nonneg (split : Bool) (beta timeStep : ℚ)
    (m : ContactManifoldSolver) (pts : List ContactPointSolver) :
    ∀ (s : ℚ) (b : RigidBodyComponents) (q : ContactPointSolver),
      q ∈ (solvePointsPass split beta timeStep m pts s b).1 →
      0 ≤ q.penetrationImpulse ∧ (split = true → 0 ≤ q.penetrationSplitImpulse) := by
  induction pts with
  | nil =>
    intro s b q hq
    simp [solvePointsPass] at hq
  | cons p ps ih =>
    intro s b q hq
    simp only [solvePointsPass, List.mem_cons] at hq
    rcases hq with h | h
    · subst h
      refine ⟨solvePoint_penetration_nonneg split beta timeStep m p s b, ?_⟩
      intro hs
      subst hs
      exact solvePoint_splitImpulse_nonneg beta timeStep m p s b
    · exact ih _ _ q h

/-- The threaded penetration-impulse sum never decreases across one normal
update. -/
theorem solvePoint_sum_le (split : Bool) (beta timeStep : ℚ)
    (m : ContactManifoldSolver) (p : ContactPointSolver) (s : ℚ)
    (b : RigidBodyComponents) :
    s ≤ (solvePoint split beta timeStep m p s b).2.1 :=
  le_add_of_nonneg_right (qmax_nonneg _ _ le_rfl)

/-- The threaded penetration-impulse sum never decreases across the whole
normal pass. -/
theorem solvePointsPass_sum_le (split : Bool) (beta timeStep : ℚ)
    (m : ContactManifoldSolver) (pts : List ContactPointSolver) :
    ∀ (s : ℚ) (b : RigidBodyComponents), s ≤ (solvePointsPass split beta timeStep m pts s b).2.1 := by
  induction pts with
  | nil => intro s b; exact le_rfl
  | cons p ps ih =>
    intro s b
    exact le_trans (solvePoint_sum_le split beta timeStep m p s b) (ih _ _)

/-- Membership in the point output of the manifold loop, given that the flat
point array owns exactly the points of the manifold records. -/
theorem solveLoop_mem_nonneg (split : Bool) (beta timeStep : ℚ)
    (ms : List ContactManifoldSolver) :
    ∀ (pts : List ContactPointSolver) (b : RigidBodyComponents),
      pts.length = sumNbContacts ms →
      ∀ q ∈ (solveLoop split beta timeStep ms pts b).2.1,
        0 ≤ q.penetrationImpulse ∧ (split = true → 0 ≤ q.penetrationSplitImpulse) := by
  induction ms with
  | nil =>
    intro pts b h q hq
    have hlen : pts.length = 0 := by simpa [sumNbContacts] using h
    have hnil : pts = [] := List.length_eq_zero.mp hlen
    subst hnil
    simp [solveLoop] at hq
  | cons m ms ih =>
    intro pts b h q hq
    have h2 : pts.length = m.nbContacts + sumNbContacts ms := by
      simpa [sumNbContacts] using h
    simp only [solveLoop, List.mem_append] at hq
    rcases hq with h1 | h1
    · exact solvePointsPass_mem_nonneg split beta timeStep m (pts.take m.nbContacts) 0 b q h1
    · refine ih (pts.drop m.nbContacts) _ ?_ q h1
      rw [List.length_drop, h2]
      omega

/-- C3: for every contact point, after any call to solve the accumulated
penetrationImpulse is nonnegative, and when split impulse is active the
accumulated penetrationSplitImpulse is nonnegative, because each normal
update projects the accumulator with a max against zero (source lines
549-552 and 617-621). -/
theorem solve_penetration_impulse_nonneg (split : Bool) (timeStep : ℚ)
    (ms : List ContactManifoldSolver) (pts : List ContactPointSolver)
    (b : RigidBodyComponents) (h : pts.length = sumNbContacts ms) :
    ∀ q ∈ (solve split timeStep ms pts b).2.1,
      0 ≤ q.penetrationImpulse ∧ (split = true → 0 ≤ q.penetrationSplitImpulse) :=
  solveLoop_mem_nonneg split (if split then BETA_SPLIT_IMPULSE else BETA) timeStep ms pts b h

/-- Witness for C3 at a concrete one-manifold one-point state with split
impulse active. -/
theorem solve_penetration_impulse_nonneg_witness :
    [defaultPoint].length = sumNbContacts [defaultManifold]
    ∧ 0 ≤ ((solve true (1/60) [defaultManifold] [defaultPoint]
          bodiesHalfFactor).2.1.getD 0 defaultPoint).penetrationImpulse := by
  refine ⟨rfl, ?_⟩
  have hout : (solve true (1/60) [defaultManifold] [defaultPoint] bodiesHalfFactor).2.1
      = [defaultPoint] := by with_unfolding_all rfl
  have hmem : ((solve true (1/60) [defaultManifold] [defaultPoint]
      bodiesHalfFactor).2.1.getD 0 defaultPoint)
      ∈ (solve true (1/60) [defaultManifold] [defaultPoint] bodiesHalfFactor).2.1 := by
    rw [hout]
    exact List.mem_singleton.mpr rfl
  exact (solve_penetration_impulse_nonneg true (1/60) [defaultManifold] [defaultPoint]
    bodiesHalfFactor rfl _ hmem).1

/-- The rolling resistance step never changes the three friction impulse
accumulators of the manifold record. -/
theorem rollingStep_preserves_friction (m : ContactManifoldSolver) (s : ℚ)
    (b : RigidBodyComponents) :
    (rollingStep m s b).1.friction1Impulse = m.friction1Impulse
    ∧ (rollingStep m s b).1.friction2Impulse = m.friction2Impulse
    ∧ (rollingStep m s b).1.frictionTwistImpulse = m.frictionTwistImpulse := by
  unfold rollingStep
  split_ifs <;> exact ⟨rfl, rfl, rfl⟩

/-- The friction and twist clamps of one manifold sweep bound the three
accumulators by the friction limit whenever the limit is nonnegative. -/
theorem frictionSteps_bounded (m : ContactManifoldSolver) (s : ℚ)
    (b : RigidBodyComponents) (hL : 0 ≤ m.frictionCoefficient * s) :
    |(frictionSteps m s b).1.friction1Impulse| ≤ m.frictionCoefficient * s
    ∧ |(frictionSteps m s b).1.friction2Impulse| ≤ m.frictionCoefficient * s
    ∧ |(frictionSteps m s b).1.frictionTwistImpulse| ≤ m.frictionCoefficient * s := by
  refine ⟨?_, ?_, ?_⟩ <;> exact abs_qclamp_le _ _ hL

/-- C4: for every manifold, after one solve sweep over it the two tangential
friction impulses and the twist friction impulse are bounded in magnitude by
the mixed friction coefficient times the penetration impulse sum accumulated
in the same sweep over that manifold (source clamps at lines 665-672,
712-719 and 753-759). -/
theorem solve_friction_impulses_bounded (split : Bool) (beta timeStep : ℚ)
    (m : ContactManifoldSolver) (pts : List ContactPointSolver)
    (b : RigidBodyComponents) (hmu : 0 ≤ m.frictionCoefficient) :
    |(solveManifold split beta timeStep m pts b).1.friction1Impulse|
      ≤ m.frictionCoefficient * (solvePointsPass split beta timeStep m pts 0 b).2.1
    ∧ |(solveManifold split beta timeStep m pts b).1.friction2Impulse|
      ≤ m.frictionCoefficient * (solvePointsPass split beta timeStep m pts 0 b).2.1
    ∧ |(solveManifold split beta timeStep m pts b).1.frictionTwistImpulse|
      ≤ m.frictionCoefficient * (solvePointsPass split beta timeStep m pts 0 b).2.1 := by
  have hs : 0 ≤ (solvePointsPass split beta timeStep m pts 0 b).2.1 :=
    solvePointsPass_sum_le split beta timeStep m pts 0 b
  have hL : 0 ≤ m.frictionCoefficient * (solvePointsPass split beta timeStep m pts 0 b).2.1 :=
    mul_nonneg hmu hs
  have e1 : (solveManifold split beta timeStep m pts b).1
      = (rollingStep
          (frictionSteps m (solvePointsPass split beta timeStep m pts 0 b).2.1
            (solvePointsPass split beta timeStep m pts 0 b).2.2).1
          (solvePointsPass split beta timeStep m pts 0 b).2.1
          (frictionSteps m (solvePointsPass split beta timeStep m pts 0 b).2.1
            (solvePointsPass split beta timeStep m pts 0 b).2.2).2).1 := rfl
  have hfr := frictionSteps_bounded m (solvePointsPass split beta timeStep m pts 0 b).2.1
    (solvePointsPass split beta timeStep m pts 0 b).2.2 hL
  refine ⟨?_, ?_, ?_⟩
  · rw [e1, (rollingStep_preserves_friction _ _ _).1]
    exact hfr.1
  · rw [e1, (rollingStep_preserves_friction _ _ _).2.1]
    exact hfr.2.1
  · rw [e1, (rollingStep_preserves_friction _ _ _).2.2]
    exact hfr.2.2

/-- Witness for C4 at a concrete state with friction coefficient one. -/
theorem solve_friction_impulses_bounded_witness :
    (0 : ℚ) ≤ manifoldMu1.frictionCoefficient
    ∧ |(solveManifold false (1/5) (1/60) manifoldMu1
          [defaultPoint] bodiesHalfFactor).1.friction1Impulse|
      ≤ manifoldMu1.frictionCoefficient
        * (solvePointsPass false (1/5) (1/60) manifoldMu1 [defaultPoint] 0 bodiesHalfFactor).2.1 :=
  ⟨(by norm_num : (0 : ℚ) ≤ 1),
   (solve_friction_impulses_bounded false (1/5) (1/60) manifoldMu1 [defaultPoint]
      bodiesHalfFactor (by norm_num : (0 : ℚ) ≤ 1)).1⟩

/-- C9: the rolling resistance constraint is applied only for manifolds with
a strictly positive mixed rolling resistance factor (source guard at line
774), and after the update each component of the accumulated rolling
resistance impulse is bounded in magnitude by that factor times the
penetration impulse sum of the same sweep, by the per-axis clamp. -/
theorem rolling_resistance_guarded_and_clamped (m : ContactManifoldSolver)
    (s : ℚ) (b : RigidBodyComponents) (hs : 0 ≤ s) :
    (¬ 0 < m.rollingResistanceFactor → rollingStep m s b = (m, b))
    ∧ (0 < m.rollingResistanceFactor →
        |(rollingStep m s b).1.rollingResistanceImpulse.x| ≤ m.rollingResistanceFactor * s
        ∧ |(rollingStep m s b).1.rollingResistanceImpulse.y| ≤ m.rollingResistanceFactor * s
        ∧ |(rollingStep m s b).1.rollingResistanceImpulse.z| ≤ m.rollingResistanceFactor * s) := by
  constructor
  · intro h
    unfold rollingStep
    rw [if_neg h]
  · intro h
    have hL : 0 ≤ m.rollingResistanceFactor * s := mul_nonneg h.le hs
    unfold rollingStep
    rw [if_pos h]
    exact ⟨abs_qclamp_le _ _ hL, abs_qclamp_le _ _ hL, abs_qclamp_le _ _ hL⟩

/-- Witness for C9 at a concrete state with rolling resistance factor one
third and sum two. -/
theorem rolling_resistance_guarded_and_clamped_witness :
    (0 : ℚ) ≤ 2
    ∧ |(rollingStep manifoldRho 2 bodiesHalfFactor).1.rollingResistanceImpulse.x|
      ≤ manifoldRho.rollingResistanceFactor * 2 :=
  ⟨by norm_num,
   ((rolling_resistance_guarded_and_clamped manifoldRho 2 bodiesHalfFactor
      (by norm_num : (0 : ℚ) ≤ 2)).2 (by norm_num : (0 : ℚ) < 1/3)).1⟩

/-- C7: the position-correction bias is minus (beta over the time step) times
the excess depth exactly when the depth exceeds SLOP; with split impulse
active the main-field multiplier uses only the restitution bias while the
position bias enters only the split-field update computed over the split
velocity columns; with split impulse inactive the combined bias drives the
main field and the split columns and the split accumulator are untouched
(source lines 533-548 and 596-644). -/
theorem solve_bias_and_split_separation (split : Bool) (beta timeStep : ℚ)
    (m : ContactManifoldSolver) (p : ContactPointSolver) (s : ℚ)
    (b : RigidBodyComponents) (Kn : ℚ) (hKn : Kn ≠ 0)
    (hinv : p.inversePenetrationMass = 1 / Kn) :
    (biasPenetrationDepth beta timeStep p.penetrationDepth
      = if SLOP < p.penetrationDepth
        then -(beta / timeStep) * (p.penetrationDepth - SLOP) else 0)
    ∧ (solvePoint split beta timeStep m p s b).1.penetrationImpulse
      = qmax (p.penetrationImpulse
          + normalDeltaLambda split
              ((b.constrainedLinearVelocities m.body2
                + (b.constrainedAngularVelocities m.body2).cross p.r2
                - b.constrainedLinearVelocities m.body1
                - (b.constrainedAngularVelocities m.body1).cross p.r1).dot p.normal)
              (biasPenetrationDepth beta timeStep p.penetrationDepth)
              p.restitutionBias p.inversePenetrationMass) 0
    ∧ (∀ Jv bias : ℚ,
        normalDeltaLambda split Jv bias p.restitutionBias p.inversePenetrationMass
          = if split then -(Jv + p.restitutionBias) / Kn
            else -(Jv + bias + p.restitutionBias) / Kn)
    ∧ (split = false →
        (solvePoint false beta timeStep m p s b).2.2.splitLinearVelocities
          = b.splitLinearVelocities
        ∧ (solvePoint false beta timeStep m p s b).2.2.splitAngularVelocities
          = b.splitAngularVelocities
        ∧ (solvePoint false beta timeStep m p s b).1.penetrationSplitImpulse
          = p.penetrationSplitImpulse)
    ∧ (split = true →
        (solvePoint true beta timeStep m p s b).1.penetrationSplitImpulse
          = qmax (p.penetrationSplitImpulse
              + -((b.splitLinearVelocities m.body2
                    + (b.splitAngularVelocities m.body2).cross p.r2
                    - b.splitLinearVelocities m.body1
                    - (b.splitAngularVelocities m.body1).cross p.r1).dot p.normal
                  + biasPenetrationDepth beta timeStep p.penetrationDepth) / Kn) 0) := by
  have hmul : ∀ t : ℚ, t * p.inversePenetrationMass = t / Kn := by
    intro t
    rw [hinv, mul_one_div]
  refine ⟨?_, ?_, ?_, ?_, ?_⟩
  · unfold biasPenetrationDepth
    split_ifs with h
    · have hq : qmax 0 (p.penetrationDepth - SLOP) = p.penetrationDepth - SLOP := by
        unfold qmax
        rw [if_pos (by linarith)]
      rw [hq]
    · rfl
  · rfl
  · intro Jv bias
    unfold normalDeltaLambda
    cases split
    · simp only [Bool.false_eq_true, if_false]
      rw [hmul]
      ring_nf
    · simp only [if_true]
      rw [hmul]
  · intro h
    exact ⟨rfl, rfl, rfl⟩
  · intro h
    rw [← hmul]
    rfl

/-- Witness for C7 at a concrete point with inverse penetration mass one
half and effective mass two. -/
theorem solve_bias_and_split_separation_witness :
    ((2 : ℚ) ≠ 0)
    ∧ pointHalf.inversePenetrationMass = 1 / 2
    ∧ biasPenetrationDepth (1/5) (1/60) pointHalf.penetrationDepth
      = (if SLOP < pointHalf.penetrationDepth
         then -((1/5) / (1/60)) * (pointHalf.penetrationDepth - SLOP) else 0)
    ∧ normalDeltaLambda true 3 7 pointHalf.restitutionBias pointHalf.inversePenetrationMass
      = -(3 + pointHalf.restitutionBias) / 2 :=
  ⟨by norm_num, rfl,
   (solve_bias_and_split_separation true (1/5) (1/60) defaultManifold pointHalf 0
      bodiesHalfFactor 2 (by norm_num) rfl).1,
   ((solve_bias_and_split_separation true (1/5) (1/60) defaultManifold pointHalf 0
      bodiesHalfFactor 2 (by norm_num) rfl).2.2.1 3 7).trans (if_pos rfl)⟩

/-- A resting contact point passes through the warm-start point step
unchanged and raises the flag. -/
theorem warmStartPoint_resting (m : ContactManifoldSolver) (p : ContactPointSolver)
    (b : RigidBodyComponents) (flag : Bool) (hp : p.isRestingContact = true) :
    (warmStartPoint m p b flag).1 = p ∧ (warmStartPoint m p b flag).2.2 = true := by
  unfold warmStartPoint
  rw [if_pos hp]
  exact ⟨rfl, rfl⟩

/-- A new contact point has its penetration impulse zeroed by the warm-start
point step, which leaves the body store and the flag alone. -/
theorem warmStartPoint_new (m : ContactManifoldSolver) (p : ContactPointSolver)
    (b : RigidBodyComponents) (flag : Bool) (hp : p.isRestingContact = false) :
    warmStartPoint m p b flag = ({ p with penetrationImpulse := 0 }, b, flag) := by
  unfold warmStartPoint
  rw [if_neg (by simp [hp])]

/-- The warm-start point pass maps every point to itself when resting and to
its zero-impulse version otherwise, and its outgoing flag records whether
the incoming flag was set or any point was resting. -/
theorem warmStartPointsPass_spec (m : ContactManifoldSolver)
    (pts : List ContactPointSolver) :
    ∀ (b : RigidBodyComponents) (flag : Bool),
      (warmStartPointsPass m pts b flag).1
        = pts.map (fun p => if p.isRestingContact then p
            else { p with penetrationImpulse := 0 })
      ∧ (warmStartPointsPass m pts b flag).2.2
        = (flag || pts.any fun p => p.isRestingContact) := by
  induction pts with
  | nil =>
    intro b flag
    simp [warmStartPointsPass]
  | cons p ps ih =>
    intro b flag
    cases hp : p.isRestingContact
    · rw [show warmStartPointsPass m (p :: ps) b flag
          = ((warmStartPoint m p b flag).1 ::
              (warmStartPointsPass m ps (warmStartPoint m p b flag).2.1
                (warmStartPoint m p b flag).2.2).1,
             (warmStartPointsPass m ps (warmStartPoint m p b flag).2.1
                (warmStartPoint m p b flag).2.2).2) from rfl]
      rw [warmStartPoint_new m p b flag hp]
      constructor
      · simp [(ih b flag).1, hp]
      · simp [(ih b flag).2, hp]
    · have h1 := warmStartPoint_resting m p b flag hp
      rw [show warmStartPointsPass m (p :: ps) b flag
          = ((warmStartPoint m p b flag).1 ::
              (warmStartPointsPass m ps (warmStartPoint m p b flag).2.1
                (warmStartPoint m p b flag).2.2).1,
             (warmStartPointsPass m ps (warmStartPoint m p b flag).2.1
                (warmStartPoint m p b flag).2.2).2) from rfl]
      rw [h1.1, h1.2]
      constructor
      · simp [(ih _ _).1, hp]
      · simp [(ih _ _).2, hp]

/-- The point list produced by the warm-start of one manifold is the mapped
point list of the pass, in both branches. -/
theorem warmStartManifold_points (m : ContactManifoldSolver)
    (pts : List ContactPointSolver) (b : RigidBodyComponents) :
    (warmStartManifold m pts b).2.1
      = pts.map (fun p => if p.isRestingContact then p
          else { p with penetrationImpulse := 0 }) := by
  unfold warmStartManifold
  cases h : (warmStartPointsPass m pts b false).2.2
  · simp only [h, Bool.false_eq_true, if_false]
    exact (warmStartPointsPass_spec m pts b false).1
  · simp only [h, if_true]
    exact (warmStartPointsPass_spec m pts b false).1

/-- C6: in warm-start, for every manifold, when at least one contact point is
resting the old manifold friction impulses are projected onto the new
tangent basis through the reassembled world-space impulse, otherwise the
friction, twist and rolling accumulators are zeroed; and every non-resting
contact point has its penetration impulse zeroed (source lines 349-492). -/
theorem warmStart_projection_and_zeroing (m : ContactManifoldSolver)
    (pts : List ContactPointSolver) (b : RigidBodyComponents) :
    ((pts.any fun p => p.isRestingContact) = true →
      (warmStartManifold m pts b).1.friction1Impulse
        = (oldFrictionImpulse m).dot m.frictionVector1
      ∧ (warmStartManifold m pts b).1.friction2Impulse
        = (oldFrictionImpulse m).dot m.frictionVector2)
    ∧ ((pts.any fun p => p.isRestingContact) = false →
      (warmStartManifold m pts b).1.friction1Impulse = 0
      ∧ (warmStartManifold m pts b).1.friction2Impulse = 0
      ∧ (warmStartManifold m pts b).1.frictionTwistImpulse = 0
      ∧ (warmStartManifold m pts b).1.rollingResistanceImpulse = Vec3.zero)
    ∧ (∀ i, i < pts.length → (pts.getD i defaultPoint).isRestingContact = false →
      ((warmStartManifold m pts b).2.1.getD i defaultPoint).penetrationImpulse = 0) := by
  have hflag := (warmStartPointsPass_spec m pts b false).2
  refine ⟨?_, ?_, ?_⟩
  · intro h
    have h2 : (warmStartPointsPass m pts b false).2.2 = true := by
      rw [hflag, h, Bool.or_true]
    unfold warmStartManifold
    rw [if_pos h2]
    exact ⟨rfl, rfl⟩
  · intro h
    have h2 : (warmStartPointsPass m pts b false).2.2 = false := by
      rw [hflag, h, Bool.or_false]
    unfold warmStartManifold
    rw [if_neg (by simp [h2])]
    exact ⟨rfl, rfl, rfl, rfl⟩
  · intro i hi hrest
    rw [warmStartManifold_points m pts b]
    rw [show (pts.map (fun p => if p.isRestingContact then p
          else { p with penetrationImpulse := 0 })).getD i defaultPoint
        = (fun p => if p.isRestingContact then p
            else { p with penetrationImpulse := 0 }) (pts.getD i defaultPoint) from
      List.getD_map pts defaultPoint _]
    simp only [List.getD, List.get?_eq_getElem?] at hrest
    simp [hrest]

/-- Witness for C6 at a concrete manifold with one resting and one new
contact point. -/
theorem warmStart_projection_and_zeroing_witness :
    (([pointResting, defaultPoint].any fun p => p.isRestingContact) = true)
    ∧ (warmStartManifold defaultManifold [pointResting, defaultPoint]
        bodiesHalfFactor).1.friction1Impulse
      = (oldFrictionImpulse defaultManifold).dot defaultManifold.frictionVector1
    ∧ (1 : ℕ) < ([pointResting, defaultPoint] : List ContactPointSolver).length
    ∧ (([pointResting, defaultPoint].getD 1 defaultPoint) :
        ContactPointSolver).isRestingContact = false
    ∧ ((warmStartManifold defaultManifold [pointResting, defaultPoint]
        bodiesHalfFactor).2.1.getD 1 defaultPoint).penetrationImpulse = 0 :=
  ⟨rfl,
   ((warmStart_projection_and_zeroing defaultManifold [pointResting, defaultPoint]
      bodiesHalfFactor).1 rfl).1,
   by norm_num,
   rfl,
   (warmStart_projection_and_zeroing defaultManifold [pointResting, defaultPoint]
      bodiesHalfFactor).2.2 1 (by norm_num) rfl⟩

@[simp] theorem Vec3.add_x (a b : Vec3) : (a + b).x = a.x + b.x := rfl

@[simp] theorem Vec3.add_y (a b : Vec3) : (a + b).y = a.y + b.y := rfl

@[simp] theorem Vec3.add_z (a b : Vec3) : (a + b).z = a.z + b.z := rfl

@[simp] theorem Vec3.sub_x (a b : Vec3) : (a - b).x = a.x - b.x := rfl

@[simp] theorem Vec3.sub_y (a b : Vec3) : (a - b).y = a.y - b.y := rfl

@[simp] theorem Vec3.sub_z (a b : Vec3) : (a - b).z = a.z - b.z := rfl

@[simp] theorem Vec3.smul_x (k : ℚ) (a : Vec3) : (k • a).x = k * a.x := rfl

@[simp] theorem Vec3.smul_y (k : ℚ) (a : Vec3) : (k • a).y = k * a.y := rfl

@[simp] theorem Vec3.smul_z (k : ℚ) (a : Vec3) : (k • a).z = k * a.z := rfl

/-- The dot product is symmetric. -/
theorem Vec3.dot_comm (a b : Vec3) : a.dot b = b.dot a := by
  simp only [Vec3.dot]
  ring

/-- A cross product is orthogonal to its first factor. -/
theorem Vec3.dot_cross_left (a b : Vec3) : (a.cross b).dot a = 0 := by
  simp only [Vec3.dot, Vec3.cross]
  ring

/-- A cross product is orthogonal to its second factor. -/
theorem Vec3.dot_cross_right (a b : Vec3) : b.dot (a.cross b) = 0 := by
  simp only [Vec3.dot, Vec3.cross]
  ring

/-- Scalars move out of the left argument of the dot product. -/
theorem Vec3.dot_smul_left (k : ℚ) (a b : Vec3) : (k • a).dot b = k * a.dot b := by
  simp only [Vec3.dot, Vec3.smul_x, Vec3.smul_y, Vec3.smul_z]
  ring

/-- Scalars move out of the right argument of the dot product. -/
theorem Vec3.dot_smul_right (k : ℚ) (a b : Vec3) : a.dot (k • b) = k * a.dot b := by
  simp only [Vec3.dot, Vec3.smul_x, Vec3.smul_y, Vec3.smul_z]
  ring

/-- The Lagrange identity for the square length of a cross product. -/
theorem Vec3.normSq_cross (a b : Vec3) :
    (a.cross b).dot (a.cross b) = (a.dot a) * (b.dot b) - (a.dot b) * (a.dot b) := by
  simp only [Vec3.dot, Vec3.cross]
  ring

/-- The vector triple product against the same outer vector. -/
theorem Vec3.cross_cross_self (u n : Vec3) :
    u.cross (n.cross u) = (u.dot u) • n - (u.dot n) • u := by
  refine Vec3.ext ?_ ?_ ?_ <;>
    simp only [Vec3.cross, Vec3.dot, Vec3.sub_x, Vec3.sub_y, Vec3.sub_z,
      Vec3.smul_x, Vec3.smul_y, Vec3.smul_z] <;>
    ring

/-- Multiplication by the scalar one is the identity on vectors. -/
theorem Vec3.one_smul_eq (a : Vec3) : (1 : ℚ) • a = a := by
  refine Vec3.ext ?_ ?_ ?_ <;> simp

/-- Multiplication by the scalar zero yields the zero vector. -/
theorem Vec3.zero_smul_eq (a : Vec3) : (0 : ℚ) • a = Vec3.zero := by
  refine Vec3.ext ?_ ?_ ?_ <;> simp [Vec3.zero]

/-- Subtracting the zero vector is the identity. -/
theorem Vec3.sub_zero_eq (a : Vec3) : a - Vec3.zero = a := by
  refine Vec3.ext ?_ ?_ ?_ <;> simp [Vec3.zero]

/-- Given a unit normal and a unit tangent orthogonal to it, the unit cross
product completes a right-handed orthonormal tangent basis: it is orthogonal
to both and the cross product of the two friction vectors recovers the
normal. -/
theorem frictionBasisCore (n u : Vec3) (lc : ℚ) (hn : n.dot n = 1)
    (ho : u.dot n = 0) (hu : u.dot u = 1) (hlc : 0 < lc)
    (hlc2 : lc * lc = (n.cross u).dot (n.cross u)) :
    (frictionVector2Unit n u lc).dot n = 0
    ∧ u.dot (frictionVector2Unit n u lc) = 0
    ∧ u.cross (frictionVector2Unit n u lc) = n := by
  have hnu : n.dot u = 0 := by
    rw [Vec3.dot_comm]
    exact ho
  have hlen : (n.cross u).dot (n.cross u) = 1 := by
    rw [Vec3.normSq_cross, hn, hu, hnu]
    ring
  have hlc1 : lc = 1 := by
    have h2 : lc * lc = 1 := hlc2.trans hlen
    have h3 : (lc - 1) * (lc + 1) = 0 := by linear_combination h2
    rcases mul_eq_zero.mp h3 with h4 | h4
    · linarith
    · linarith
  subst hlc1
  have hone : (1 : ℚ) / 1 = 1 := by norm_num
  refine ⟨?_, ?_, ?_⟩
  · rw [frictionVector2Unit, Vec3.dot_smul_left]
    rw [show (n.cross u).dot n = 0 from Vec3.dot_cross_left n u]
    ring
  · rw [frictionVector2Unit, Vec3.dot_smul_right]
    rw [show u.dot (n.cross u) = 0 from Vec3.dot_cross_right n u]
    ring
  · rw [frictionVector2Unit, hone, Vec3.one_smul_eq, Vec3.cross_cross_self, hu, ho,
      Vec3.one_smul_eq, Vec3.zero_smul_eq, Vec3.sub_zero_eq]

/-- In the tangential-velocity branch of computeFrictionVectors, the first
friction vector is a unit vector orthogonal to the unit manifold normal. -/
theorem tangent_unit_orth (dv n : Vec3) (lt : ℚ) (hn : n.dot n = 1)
    (hlt : 0 < lt)
    (hlt2 : lt * lt = (tangentVelocity dv n).dot (tangentVelocity dv n)) :
    (frictionVector1Tangent dv n lt).dot n = 0
    ∧ (frictionVector1Tangent dv n lt).dot (frictionVector1Tangent dv n lt) = 1 := by
  have htn : (tangentVelocity dv n).dot n = 0 := by
    have expand : (tangentVelocity dv n).dot n = dv.dot n - (dv.dot n) * (n.dot n) := by
      simp only [tangentVelocity, Vec3.dot, Vec3.sub_x, Vec3.sub_y, Vec3.sub_z,
        Vec3.smul_x, Vec3.smul_y, Vec3.smul_z]
      ring
    rw [expand, hn]
    ring
  have hne : lt ≠ 0 := ne_of_gt hlt
  constructor
  · rw [frictionVector1Tangent, Vec3.dot_smul_left, htn]
    ring
  · rw [frictionVector1Tangent, Vec3.dot_smul_left, Vec3.dot_smul_right, ← hlt2]
    field_simp

/-- C5: after init, for a manifold whose accumulated normal has been
normalized, computeFrictionVectors yields a first friction vector orthogonal
to the normal, a second friction vector orthogonal to both, and a
right-handed basis whose cross product recovers the normal, in both the
tangential-velocity branch and the arbitrary-orthogonal fallback branch
(source lines 847-876; the fallback helper getOneUnitOrthogonalVector and
the euclidean lengths are modelled from the spec as stated on the
definitions above). -/
theorem computeFrictionVectors_orthonormal_basis (n : Vec3) (hn : n.dot n = 1) :
    (∀ (dv : Vec3) (lt lc : ℚ), 0 < lt →
      lt * lt = (tangentVelocity dv n).dot (tangentVelocity dv n) →
      0 < lc →
      lc * lc = (n.cross (frictionVector1Tangent dv n lt)).dot
          (n.cross (frictionVector1Tangent dv n lt)) →
      (frictionVector1Tangent dv n lt).dot n = 0
      ∧ (frictionVector2Unit n (frictionVector1Tangent dv n lt) lc).dot n = 0
      ∧ (frictionVector1Tangent dv n lt).dot
          (frictionVector2Unit n (frictionVector1Tangent dv n lt) lc) = 0
      ∧ (frictionVector1Tangent dv n lt).cross
          (frictionVector2Unit n (frictionVector1Tangent dv n lt) lc) = n)
    ∧ (∀ (u : Vec3) (lc : ℚ), u.dot n = 0 → u.dot u = 1 → 0 < lc →
      lc * lc = (n.cross u).dot (n.cross u) →
      (frictionVector2Unit n u lc).dot n = 0
      ∧ u.dot (frictionVector2Unit n u lc) = 0
      ∧ u.cross (frictionVector2Unit n u lc) = n) := by
  constructor
  · intro dv lt lc hlt hlt2 hlc hlc2
    obtain ⟨h1, h2⟩ := tangent_unit_orth dv n lt hn hlt hlt2
    obtain ⟨c1, c2, c3⟩ := frictionBasisCore n (frictionVector1Tangent dv n lt) lc hn h1 h2 hlc hlc2
    exact ⟨h1, c1, c2, c3⟩
  · intro u lc ho hu hlc hlc2
    exact frictionBasisCore n u lc hn ho hu hlc hlc2

/-- Witness for C5: normal (0,0,1), centre relative velocity (3,4,5) with
tangential length five in the first branch, and fallback tangent (1,0,0);
both branches produce a basis whose cross product recovers the normal. -/
theorem computeFrictionVectors_orthonormal_basis_witness :
    Vec3.dot ⟨0, 0, 1⟩ ⟨0, 0, 1⟩ = 1
    ∧ (frictionVector1Tangent ⟨3, 4, 5⟩ ⟨0, 0, 1⟩ 5).cross
        (frictionVector2Unit ⟨0, 0, 1⟩ (frictionVector1Tangent ⟨3, 4, 5⟩ ⟨0, 0, 1⟩ 5) 1)
      = ⟨0, 0, 1⟩
    ∧ (⟨1, 0, 0⟩ : Vec3).cross (frictionVector2Unit ⟨0, 0, 1⟩ ⟨1, 0, 0⟩ 1) = ⟨0, 0, 1⟩ :=
  ⟨by norm_num [Vec3.dot],
   ((computeFrictionVectors_orthonormal_basis ⟨0, 0, 1⟩ (by norm_num [Vec3.dot])).1
      ⟨3, 4, 5⟩ 5 1 (by norm_num) (by with_unfolding_all rfl) (by norm_num)
      (by with_unfolding_all rfl)).2.2.2,
   ((computeFrictionVectors_orthonormal_basis ⟨0, 0, 1⟩ (by norm_num [Vec3.dot])).2
      ⟨1, 0, 0⟩ 1 (by norm_num [Vec3.dot]) (by norm_num [Vec3.dot]) (by norm_num)
      (by with_unfolding_all rfl)).2.2⟩

end RP3D
